import Mathlib

/-!
# Authentication and session module of `src/index.js`

A shallow embedding of the authentication code of the dashboard script
(`hashPassword`, `validatePassword`, `validateEmail`, `login`, `signup`,
`logout`, `checkAuth`, the hourly `setInterval` callback and the start-up
block that creates the default administrator), followed by theorems about it.

Modelling conventions.

* JavaScript strings are Lean `String`s; `===` on strings is `=`.
* A `Date` is its millisecond time value, a `Nat`.  The script stores dates as
  `toISOString()` text and reads them back with `new Date(text)`; that round
  trip keeps the millisecond value, so the text form is not modelled.
* Every `new Date()` / `Date.now()` the code performs is a separate clock
  reading and every `generateId()` a separate draw of `Math.random()`; each is
  a field of an environment record passed to the operation.
* The `users` array is a `List User`; the `sessions` object is a finite map
  from session id to `Session` (own properties only, key order ignored); the
  local-storage key `spamshare_current_session` is an `Option String`.
  Ids written by the code come from `generateId()`, at most nine characters
  out of `0-9a-z`, possibly none; no such string names a property that the
  `sessions` object inherits, so a lookup sees own properties only.
* `currentUser` holds a reference to an element of `users`.  The array only
  grows at its end, so the reference is the position of that element.
* A thrown exception leaves the store as it was at the `throw`; operations
  that can throw return the outcome together with the store.
-/

namespace Shareer

/-! ## Records -/

/-- The `shareStats` object of an account. -/
structure ShareStats where
  totalShares : Nat
  successfulShares : Nat
  failedShares : Nat
  activeSessions : Nat
  deriving DecidableEq, Repr

/-- An element of the `users` array. -/
structure User where
  id : String
  firstName : String
  lastName : String
  username : String
  email : String
  password : String
  plan : String
  createdAt : Nat
  lastLogin : Option Nat
  shareStats : ShareStats
  deriving DecidableEq, Repr

/-- A value of the `sessions` object. -/
structure Session where
  userId : String
  createdAt : Nat
  expiresAt : Nat
  deriving DecidableEq, Repr

/-- The `sessions` object: a finite map keyed by session id. -/
abbrev SessionTable := AList (fun _ : String => Session)

/-- The mutable state the authentication functions read and write. -/
structure Store where
  users : List User
  sessions : SessionTable
  currentSession : Option String
  currentUser : Option Nat

/-- What a `throw` carries: an `Error` with its message, or the
`InvalidCharacterError` exception raised by `btoa`. -/
inductive Thrown where
  | error (message : String)
  | invalidCharacterError
  deriving DecidableEq, Repr

deriving instance DecidableEq for Except

/-- The object `{ user, sessionId }` returned by `login`. -/
structure LoginResult where
  user : User
  sessionId : String
  deriving DecidableEq, Repr

/-- The argument of `signup`. -/
structure SignupData where
  firstName : String
  lastName : String
  username : String
  email : String
  password : String
  confirmPassword : String
  deriving DecidableEq, Repr

/-- The readings `login` takes from its environment, in program order:
`new Date()` for `lastLogin`, `generateId()`, `new Date()` for `createdAt`,
`Date.now()` for `expiresAt`. -/
structure LoginEnv where
  lastLoginAt : Nat
  sessionId : String
  createdAt : Nat
  dateNow : Nat
  deriving DecidableEq, Repr

/-- The readings `signup` takes from its environment: `generateId()` and
`new Date()` for the new account, then those of the `login` it ends with. -/
structure SignupEnv where
  userId : String
  createdAt : Nat
  login : LoginEnv
  deriving DecidableEq, Repr

/-! ## `btoa` and `hashPassword` -/

/-- The base64 alphabet. -/
def b64Alphabet : List Char :=
  "ABCDEFGHIJKLMNOPQRSTUVWXYZabcdefghijklmnopqrstuvwxyz0123456789+/".data

/-- The base64 digit of a six-bit value. -/
def b64Char (n : Nat) : Char := b64Alphabet.getD n 'A'

/-- Base64 of a list of byte values, with `=` padding. -/
def b64Encode : List Nat → List Char
  | [] => []
  | [a] => [b64Char (a / 4), b64Char (a % 4 * 16), '=', '=']
  | [a, b] => [b64Char (a / 4), b64Char (a % 4 * 16 + b / 16), b64Char (b % 16 * 4), '=']
  | a :: b :: c :: rest =>
    b64Char (a / 4) :: b64Char (a % 4 * 16 + b / 16) :: b64Char (b % 16 * 4 + c / 64)
      :: b64Char (c % 64) :: b64Encode rest

/-- The browser built-in `btoa`: base64 of a string whose characters all lie
in the Latin-1 range; on any other string it throws `InvalidCharacterError`
(`none`). -/
def btoa (s : String) : Option String :=
  if s.data.all (fun c => decide (c.toNat ≤ 255)) then
    some (String.mk (b64Encode (s.data.map Char.toNat)))
  else none

/-- The function `hashPassword(password)`: `return btoa(password)`. -/
def hashPassword (password : String) : Option String := btoa password

/-! ## The two validators -/

/-- The class `[A-Za-z]`. -/
def isAsciiLetter (c : Char) : Bool :=
  (decide ('A'.toNat ≤ c.toNat) && decide (c.toNat ≤ 'Z'.toNat)) ||
  (decide ('a'.toNat ≤ c.toNat) && decide (c.toNat ≤ 'z'.toNat))

/-- The class `\d`. -/
def isDigit (c : Char) : Bool :=
  decide ('0'.toNat ≤ c.toNat) && decide (c.toNat ≤ '9'.toNat)

/-- The class `[@$!%*#?&]`. -/
def isSymbol (c : Char) : Bool :=
  ['@', '$', '!', '%', '*', '#', '?', '&'].contains c

/-- The class `[A-Za-z\d@$!%*#?&]`. -/
def isPasswordChar (c : Char) : Bool :=
  isAsciiLetter c || isDigit c || isSymbol c

/-- The characters `.` does not match: LF, CR, U+2028, U+2029. -/
def isLineTerminator (c : Char) : Bool :=
  [0x0A, 0x0D, 0x2028, 0x2029].contains c.toNat

/-- The lookahead `(?=.*X)` at the start of the input: some character of
class `X` is preceded only by characters that `.` matches. -/
def lookahead (X : Char → Bool) (cs : List Char) : Bool :=
  match cs.dropWhile (fun c => !X c && !isLineTerminator c) with
  | c :: _ => X c
  | [] => false

/-- The function `validatePassword(password)`: the test of
`/^(?=.*[A-Za-z])(?=.*\d)(?=.*[@$!%*#?&])[A-Za-z\d@$!%*#?&]{8,}$/`. -/
def validatePassword (password : String) : Bool :=
  lookahead isAsciiLetter password.data &&
  lookahead isDigit password.data &&
  lookahead isSymbol password.data &&
  password.data.all isPasswordChar &&
  decide (8 ≤ password.data.length)

/-- The class `\s` of a JavaScript regular expression. -/
def isJsSpace (c : Char) : Bool :=
  [0x09, 0x0A, 0x0B, 0x0C, 0x0D, 0x20, 0xA0, 0x1680, 0x2028, 0x2029, 0x202F, 0x205F,
    0x3000, 0xFEFF].contains c.toNat ||
  (decide (0x2000 ≤ c.toNat) && decide (c.toNat ≤ 0x200A))

/-- The class `[^\s@]`. -/
def isEmailAtom (c : Char) : Bool := !isJsSpace c && c != '@'

/-- The function `validateEmail(email)`: the test of
`/^[^\s@]+@[^\s@]+\.[^\s@]+$/`.
The first `[^\s@]+` must stop at the first character outside the class, which
has to be `@`; what follows has to consist of class characters and contain a
`.` that is neither its first nor its last character. -/
def validateEmail (email : String) : Bool :=
  match email.data.dropWhile isEmailAtom with
  | '@' :: domain =>
    !(email.data.takeWhile isEmailAtom).isEmpty &&
    domain.all isEmailAtom &&
    (domain.drop 1).dropLast.contains '.'
  | _ => false

/-! ## The operations -/

/-- The position of the first element satisfying `p`: which element
`Array.prototype.find` returns. -/
def findIdx (p : User → Bool) : List User → Option Nat
  | [] => none
  | u :: us => if p u then some 0 else (findIdx p us).map (· + 1)

/-- Apply `f` to the first element satisfying `p`: an assignment to a field of
the object that `Array.prototype.find` returned. -/
def updateFirst (p : User → Bool) (f : User → User) : List User → List User
  | [] => []
  | u :: us => if p u then f u :: us else u :: updateFirst p f us

/-- The account `currentUser` refers to, if any. -/
def Store.currentUserRecord (st : Store) : Option User :=
  st.currentUser.bind (fun i => st.users[i]?)

/-- Seven days in milliseconds, `7 * 24 * 60 * 60 * 1000`. -/
def sevenDays : Nat := 7 * 24 * 60 * 60 * 1000

/-- The callback of `users.find` in `login`:
`u => u.username === username || u.email === username`. -/
def matchesIdentifier (username : String) (u : User) : Bool :=
  decide (u.username = username) || decide (u.email = username)

/-- The `login` function.  It finds the first account whose username or email
is the identifier, compares the stored password with `hashPassword(password)`,
sets `lastLogin` on the account found, stores a new session under a generated
id and points the current session at it. -/
def login (env : LoginEnv) (username password : String) (st : Store) :
    Except Thrown LoginResult × Store :=
  match st.users.find? (matchesIdentifier username) with
  | none => (.error (.error "User not found"), st)
  | some user =>
    match hashPassword password with
    | none => (.error .invalidCharacterError, st)
    | some digest =>
      if user.password ≠ digest then (.error (.error "Invalid password"), st)
      else
        let touch : User → User := fun u => { u with lastLogin := some env.lastLoginAt }
        let session : Session :=
          { userId := user.id, createdAt := env.createdAt, expiresAt := env.dateNow + sevenDays }
        (.ok { user := touch user, sessionId := env.sessionId },
          { st with
            users := updateFirst (matchesIdentifier username) touch st.users
            sessions := st.sessions.insert env.sessionId session
            currentSession := some env.sessionId })

/-- The account object `signup` builds. -/
def newUser (env : SignupEnv) (userData : SignupData) (digest : String) : User :=
  { id := env.userId
    firstName := userData.firstName
    lastName := userData.lastName
    username := userData.username
    email := userData.email
    password := digest
    plan := "free"
    createdAt := env.createdAt
    lastLogin := none
    shareStats := { totalShares := 0, successfulShares := 0, failedShares := 0,
                    activeSessions := 0 } }

/-- The `signup` function: three validation guards, two uniqueness guards,
`users.push(newUser)`, then `login(newUser.email, userData.password)`. -/
def signup (env : SignupEnv) (userData : SignupData) (st : Store) :
    Except Thrown LoginResult × Store :=
  if !validateEmail userData.email then
    (.error (.error "Invalid email address"), st)
  else if !validatePassword userData.password then
    (.error (.error
      "Password must be at least 8 characters with numbers and special characters"), st)
  else if userData.password ≠ userData.confirmPassword then
    (.error (.error "Passwords do not match"), st)
  else if st.users.any (fun u => decide (u.email = userData.email)) then
    (.error (.error "Email already registered"), st)
  else if st.users.any (fun u => decide (u.username = userData.username)) then
    (.error (.error "Username already taken"), st)
  else
    match hashPassword userData.password with
    | none => (.error .invalidCharacterError, st)
    | some digest =>
      let created := newUser env userData digest
      login env.login created.email userData.password
        { st with users := st.users ++ [created] }

/-- The `logout` function.  The guard `sessionId && sessions[sessionId]` is
false for an absent pointer, for the empty string and for an id with no entry.
The user-interface calls that follow (`showToast`, `updateUIForAuthState`, the
delayed reload) are not modelled; the `checkAuth` inside
`updateUIForAuthState` finds no pointer and returns at its first guard. -/
def logout (st : Store) : Store :=
  let sessions :=
    match st.currentSession with
    | none => st.sessions
    | some sessionId =>
      if sessionId ≠ "" ∧ (st.sessions.lookup sessionId).isSome then
        st.sessions.erase sessionId
      else st.sessions
  { st with sessions := sessions, currentSession := none, currentUser := none }

/-- The `checkAuth` function, at clock reading `now`.  The first guard
`!sessionId || !sessions[sessionId]` holds for an absent pointer, for the
empty string and for an id with no entry; a session is expired when
`new Date(session.expiresAt) < new Date()`. -/
def checkAuth (now : Nat) (st : Store) : Bool × Store :=
  match st.currentSession with
  | none => (false, st)
  | some sessionId =>
    if sessionId = "" then (false, st)
    else
      match st.sessions.lookup sessionId with
      | none => (false, st)
      | some session =>
        if session.expiresAt < now then
          (false, { st with sessions := st.sessions.erase sessionId, currentSession := none })
        else
          match findIdx (fun u => decide (u.id = session.userId)) st.users with
          | none => (false, st)
          | some i => (true, { st with currentUser := some i })

/-- The callback the script hands to `setInterval` with a period of one hour,
at clock reading `now`: under the guard `sessionId && sessions[sessionId]` it
reads the session the pointer names and, when
`new Date(session.expiresAt) < new Date()`, shows a toast and calls
`logout()`.  It reads no other entry of `sessions`. -/
def expirySweep (now : Nat) (st : Store) : Store :=
  match st.currentSession with
  | none => st
  | some sessionId =>
    if sessionId = "" then st
    else
      match st.sessions.lookup sessionId with
      | none => st
      | some session => if session.expiresAt < now then logout st else st

/-- The account the start-up block creates when `users` is empty.  Its
password is `hashPassword('admin123')`, on which `btoa` returns a value
(`hashPassword_admin123` below). -/
def defaultUser (id : String) (createdAt : Nat) : User :=
  { id := id
    firstName := "Admin"
    lastName := "User"
    username := "admin"
    email := "admin@spamshare.com"
    password := (hashPassword "admin123").getD ""
    plan := "premium"
    createdAt := createdAt
    lastLogin := none
    shareStats := { totalShares := 0, successfulShares := 0, failedShares := 0,
                    activeSessions := 0 } }

/-- The store after the script has started on empty local storage: only the
default administrator, no session, no pointer, `currentUser = null`. -/
def bootstrapStore (id : String) (createdAt : Nat) : Store :=
  { users := [defaultUser id createdAt]
    sessions := ∅
    currentSession := none
    currentUser := none }

end Shareer

namespace Shareer

/-! ## Predicates and sample values used by the theorems -/

/-- No two accounts share a username and no two accounts share an email. -/
def usersUnique (st : Store) : Prop :=
  (st.users.map (fun u => u.username)).Nodup ∧ (st.users.map (fun u => u.email)).Nodup

instance (st : Store) : Decidable (usersUnique st) := by
  unfold usersUnique; infer_instance

/-- The stores the four operations can produce from a bootstrap store. -/
inductive Reachable : Store → Prop
  | boot (id : String) (createdAt : Nat) : Reachable (bootstrapStore id createdAt)
  | signup (env : SignupEnv) (userData : SignupData) (st : Store) :
      Reachable st → Reachable (signup env userData st).2
  | login (env : LoginEnv) (username password : String) (st : Store) :
      Reachable st → Reachable (login env username password st).2
  | logout (st : Store) : Reachable st → Reachable (logout st)
  | checkAuth (now : Nat) (st : Store) : Reachable st → Reachable (checkAuth now st).2

/-- A bootstrap store. -/
def store0 : Store := bootstrapStore "k8f3m2q9z" 1700000000000

/-- Readings in which `createdAt` and `Date.now()` fall in the same millisecond. -/
def envSameMs : LoginEnv :=
  { lastLoginAt := 1700000100000, sessionId := "p4w7c1x5r",
    createdAt := 1700000100000, dateNow := 1700000100000 }

/-- Readings in which the clock ticks between `createdAt` and `Date.now()`. -/
def envTick : LoginEnv :=
  { lastLoginAt := 1700000100000, sessionId := "p4w7c1x5r",
    createdAt := 1700000100000, dateNow := 1700000100001 }

/-- What `login("admin", "admin123")` returns on `store0` under `envSameMs`. -/
def adminLogin : LoginResult :=
  { user := { defaultUser "k8f3m2q9z" 1700000000000 with lastLogin := some 1700000100000 }
    sessionId := "p4w7c1x5r" }

/-- Readings of a `login` whose `generateId()` returns the empty string, as it
does when `Math.random()` returns `0`. -/
def envEmptyId : LoginEnv :=
  { lastLoginAt := 1700000100000, sessionId := "",
    createdAt := 1700000100000, dateNow := 1700000100000 }

/-- The store after the administrator has logged in under `envEmptyId`. -/
def storeEmptyId : Store := (login envEmptyId "admin" "admin123" store0).2

/-- The store after the administrator has logged in under `envSameMs`. -/
def storeLoggedIn : Store := (login envSameMs "admin" "admin123" store0).2

/-- Readings of a second `login`, one second after `envSameMs`. -/
def envSecond : LoginEnv :=
  { lastLoginAt := 1700000101000, sessionId := "m2n4b6v8c",
    createdAt := 1700000101000, dateNow := 1700000101000 }

/-- The store after the administrator has logged in twice without logging
out: the pointer names the second session and the first is still stored. -/
def storeTwoLogins : Store := (login envSecond "admin" "admin123" storeLoggedIn).2

/-- A store whose current session expires at time 5000. -/
def storeBoundary : Store :=
  { users := [defaultUser "k8f3m2q9z" 0]
    sessions := (∅ : SessionTable).insert "p4w7c1x5r"
      { userId := "k8f3m2q9z", createdAt := 1000, expiresAt := 5000 }
    currentSession := some "p4w7c1x5r"
    currentUser := none }

/-- A store whose current session expired at time 5000, next to another
session. -/
def storeExpired : Store :=
  { users := [defaultUser "k8f3m2q9z" 0]
    sessions := ((∅ : SessionTable).insert "p4w7c1x5r"
      { userId := "k8f3m2q9z", createdAt := 1000, expiresAt := 5000 }).insert "m2n4b6v8c"
      { userId := "k8f3m2q9z", createdAt := 2000, expiresAt := 9000 }
    currentSession := some "p4w7c1x5r"
    currentUser := some 0 }

/-- A first visitor, who picks an email-shaped username. -/
def carolData : SignupData :=
  { firstName := "Carol", lastName := "Diaz", username := "dave@mail.com",
    email := "carol@mail.com", password := "abc123!@", confirmPassword := "abc123!@" }

/-- Readings of the first visitor's `signup`. -/
def carolEnv : SignupEnv :=
  { userId := "c7h2n5t8b", createdAt := 1700000200000,
    login := { lastLoginAt := 1700000200000, sessionId := "s1e9v3u6y",
               createdAt := 1700000200000, dateNow := 1700000200000 } }

/-- The store after the first visitor has signed up. -/
def storeWithCarol : Store := (signup carolEnv carolData store0).2

/-- A second visitor, whose email is the first visitor's username. -/
def daveData : SignupData :=
  { firstName := "Dave", lastName := "Egan", username := "dave",
    email := "dave@mail.com", password := "xyz789#?", confirmPassword := "xyz789#?" }

/-- Readings of the second visitor's `signup`. -/
def daveEnv : SignupEnv :=
  { userId := "d3g6j9l2w", createdAt := 1700000300000,
    login := { lastLoginAt := 1700000300000, sessionId := "t5r8o2i4z",
               createdAt := 1700000300000, dateNow := 1700000300000 } }

/-- A signup that reuses the administrator's email and username. -/
def cloneData : SignupData :=
  { firstName := "Ann", lastName := "Other", username := "admin",
    email := "admin@spamshare.com", password := "abc123!@", confirmPassword := "abc123!@" }

end Shareer

namespace Shareer

/-! ## Lemmas on the list helpers -/

theorem find?_split (p : User → Bool) (f : User → User) :
    ∀ (l : List User) (u : User), l.find? p = some u →
      ∃ pre post, l = pre ++ u :: post ∧ (∀ x ∈ pre, p x = false) ∧ p u = true ∧
        updateFirst p f l = pre ++ f u :: post := by
  intro l
  induction l with
  | nil => intro u h; simp at h
  | cons a l ih =>
    intro u h
    by_cases hp : p a = true
    · have hau : a = u := by simpa [List.find?, hp] using h
      subst hau
      exact ⟨[], l, rfl, by simp, hp, by simp [updateFirst, hp]⟩
    · have hp' : p a = false := by simpa using hp
      have h' : l.find? p = some u := by simpa [List.find?, hp'] using h
      obtain ⟨pre, post, hl, hpre, hu, hupd⟩ := ih u h'
      refine ⟨a :: pre, post, by simp [hl], ?_, hu, ?_⟩
      · intro x hx
        rcases List.mem_cons.mp hx with rfl | hx
        · exact hp'
        · exact hpre x hx
      · simp [updateFirst, hp', hupd]

theorem find?_none_iff (p : User → Bool) (l : List User) :
    l.find? p = none ↔ ∀ x ∈ l, p x = false := by
  induction l with
  | nil => simp
  | cons a l ih =>
    by_cases hp : p a = true
    · simp [List.find?, hp]
    · have hp' : p a = false := by simpa using hp
      simp [List.find?, hp', ih]

theorem findIdx_eq_none (p : User → Bool) (l : List User) :
    findIdx p l = none ↔ l.find? p = none := by
  induction l with
  | nil => simp [findIdx]
  | cons a l ih =>
    by_cases hp : p a = true
    · simp [findIdx, List.find?, hp]
    · have hp' : p a = false := by simpa using hp
      simp [findIdx, List.find?, hp', ih]

theorem findIdx_get (p : User → Bool) :
    ∀ (l : List User) (i : Nat), findIdx p l = some i → l[i]? = l.find? p := by
  intro l
  induction l with
  | nil => intro i h; simp [findIdx] at h
  | cons a l ih =>
    intro i h
    by_cases hp : p a = true
    · have : i = 0 := by simpa [findIdx, hp, eq_comm] using h
      subst this
      simp [List.find?, hp]
    · have hp' : p a = false := by simpa using hp
      simp only [findIdx, hp', Bool.false_eq_true, if_false, Option.map_eq_some'] at h
      obtain ⟨j, hj, rfl⟩ := h
      simp [List.find?, hp', ih j hj]

theorem updateFirst_map {β : Type} (g : User → β) (p : User → Bool) (f : User → User)
    (hf : ∀ u, g (f u) = g u) (l : List User) : (updateFirst p f l).map g = l.map g := by
  induction l with
  | nil => rfl
  | cons a l ih =>
    by_cases hp : p a = true
    · simp [updateFirst, hp, hf]
    · have hp' : p a = false := by simpa using hp
      simp [updateFirst, hp', ih]

theorem btoa_isSome_iff (s : String) :
    (∃ d, btoa s = some d) ↔ ∀ c ∈ s.data, c.toNat ≤ 255 := by
  unfold btoa
  by_cases h : (s.data.all fun c => decide (c.toNat ≤ 255)) = true
  · simp only [h, if_true]
    constructor
    · intro _ c hc
      simpa using (List.all_eq_true.mp h) c hc
    · intro _; exact ⟨_, rfl⟩
  · simp only [h]
    constructor
    · rintro ⟨d, hd⟩; simp at hd
    · intro hall
      exact absurd (List.all_eq_true.mpr (fun c hc => by simpa using hall c hc)) h

/-- The digest stored for the default administrator. -/
theorem hashPassword_admin123 : hashPassword "admin123" = some "YWRtaW4xMjM=" := by
  decide

/-- The outcome of `login` once the account has been found and the password
has been encoded. -/
theorem login_found (env : LoginEnv) (identifier password : String) (st : Store)
    (user : User) (digest : String)
    (hu : st.users.find? (matchesIdentifier identifier) = some user)
    (hd : hashPassword password = some digest) :
    login env identifier password st =
      if user.password ≠ digest then (.error (.error "Invalid password"), st)
      else
        (.ok { user := { user with lastLogin := some env.lastLoginAt },
               sessionId := env.sessionId },
          { st with
            users := updateFirst (matchesIdentifier identifier)
              (fun u => { u with lastLogin := some env.lastLoginAt }) st.users
            sessions := st.sessions.insert env.sessionId
              { userId := user.id, createdAt := env.createdAt,
                expiresAt := env.dateNow + sevenDays }
            currentSession := some env.sessionId }) := by
  simp only [login, hu, hd]

/-- A successful `login` found an account and a matching digest. -/
theorem login_ok_inv (env : LoginEnv) (identifier password : String) (st : Store)
    (r : LoginResult) (h : (login env identifier password st).1 = .ok r) :
    ∃ user digest, st.users.find? (matchesIdentifier identifier) = some user ∧
      hashPassword password = some digest ∧ user.password = digest := by
  cases hu : st.users.find? (matchesIdentifier identifier) with
  | none => simp [login, hu] at h
  | some user =>
    cases hd : hashPassword password with
    | none => simp [login, hu, hd] at h
    | some digest =>
      refine ⟨user, digest, rfl, rfl, ?_⟩
      by_contra hne
      rw [login_found env identifier password st user digest hu hd] at h
      simp [hne] at h

/-! ## Theorems for the claims -/

/-- C1 (code defect): a signup that passes validation, with an email that is
no account's email and a username that is no account's username, throws
`Invalid password` after the account has been appended.  The automatic login
looks the new email up among usernames as well as emails and finds the older
account whose username is that email. -/
theorem signup_auto_login_resolves_other_account :
    Reachable storeWithCarol ∧
    validateEmail daveData.email = true ∧
    validatePassword daveData.password = true ∧
    daveData.password = daveData.confirmPassword ∧
    (∀ u ∈ storeWithCarol.users, u.email ≠ daveData.email) ∧
    (∀ u ∈ storeWithCarol.users, u.username ≠ daveData.username) ∧
    (signup daveEnv daveData storeWithCarol).1 = .error (.error "Invalid password") ∧
    (signup daveEnv daveData storeWithCarol).2.users.length =
      storeWithCarol.users.length + 1 := by
  refine ⟨Reachable.signup _ _ _ (Reachable.boot _ _), ?_⟩
  decide

/-- C2 (amended): for every store, identifier and password, `login` throws
`User not found` iff no account has the identifier as username or email.
Otherwise, with `user` the first such account: if every character of the
password is in the Latin-1 range, `hashPassword` yields a digest, `login`
throws `Invalid password` iff `user` stores a different digest and succeeds
iff it stores that digest; if some character is outside Latin-1,
`hashPassword` throws and `login` ends in `InvalidCharacterError` with the
store unchanged.  The two messages differ. -/
theorem login_outcomes (env : LoginEnv) (identifier password : String) (st : Store) :
    ((login env identifier password st).1 = .error (.error "User not found") ↔
      ∀ u ∈ st.users, u.username ≠ identifier ∧ u.email ≠ identifier) ∧
    (∀ user, st.users.find? (matchesIdentifier identifier) = some user →
      ((∀ c ∈ password.data, c.toNat ≤ 255) →
        ∃ digest, hashPassword password = some digest ∧
          ((login env identifier password st).1 = .error (.error "Invalid password") ↔
            user.password ≠ digest) ∧
          ((∃ r, (login env identifier password st).1 = .ok r) ↔ user.password = digest)) ∧
      ((∃ c ∈ password.data, 255 < c.toNat) →
        hashPassword password = none ∧
        login env identifier password st = (.error .invalidCharacterError, st))) ∧
    Thrown.error "User not found" ≠ Thrown.error "Invalid password" := by
  refine ⟨?_, ?_, by decide⟩
  · cases hu : st.users.find? (matchesIdentifier identifier) with
    | none =>
      have hnone := (find?_none_iff _ _).mp hu
      constructor
      · intro _ u hu'
        have := hnone u hu'
        simpa [matchesIdentifier] using this
      · intro _; simp [login, hu]
    | some user =>
      obtain ⟨pre, post, hl, -, hp, -⟩ :=
        find?_split (matchesIdentifier identifier) id st.users user hu
      constructor
      · intro h
        cases hd : hashPassword password with
        | none => simp [login, hu, hd] at h
        | some digest =>
          rw [login_found env identifier password st user digest hu hd] at h
          by_cases hne : user.password = digest <;> simp [hne] at h
      · intro hall
        have hmem : user ∈ st.users := by rw [hl]; simp
        have := hall user hmem
        simp [matchesIdentifier, this.1, this.2] at hp
  · intro user hu
    constructor
    · intro hLatin
      obtain ⟨digest, hd⟩ := (btoa_isSome_iff password).mpr hLatin
      have hd' : hashPassword password = some digest := hd
      refine ⟨digest, hd', ?_⟩
      rw [login_found env identifier password st user digest hu hd']
      by_cases hne : user.password = digest <;> simp [hne]
    · rintro ⟨c, hc, hbig⟩
      have hnone : hashPassword password = none := by
        cases hd : hashPassword password with
        | none => rfl
        | some digest =>
          have := (btoa_isSome_iff password).mp ⟨digest, hd⟩ c hc
          omega
      exact ⟨hnone, by simp [login, hu, hnone]⟩

/-- Witness for C2: on a bootstrap store, `login("admin", "admin123")` falls
under the Latin-1 case and a login of `admin` with a Cyrillic password under
the other. -/
theorem login_outcomes_witness :
    store0.users.find? (matchesIdentifier "admin") =
      some (defaultUser "k8f3m2q9z" 1700000000000) ∧
    (∃ digest, hashPassword "admin123" = some digest ∧
      ((login envSameMs "admin" "admin123" store0).1 = .error (.error "Invalid password") ↔
        (defaultUser "k8f3m2q9z" 1700000000000).password ≠ digest) ∧
      ((∃ r, (login envSameMs "admin" "admin123" store0).1 = .ok r) ↔
        (defaultUser "k8f3m2q9z" 1700000000000).password = digest)) ∧
    (hashPassword "пароль123!" = none ∧
      login envSameMs "admin" "пароль123!" store0 =
        (.error .invalidCharacterError, store0)) :=
  ⟨by decide,
    ((login_outcomes envSameMs "admin" "admin123" store0).2.1
      (defaultUser "k8f3m2q9z" 1700000000000) (by decide)).1 (by decide),
    ((login_outcomes envSameMs "admin" "пароль123!" store0).2.1
      (defaultUser "k8f3m2q9z" 1700000000000) (by decide)).2 ⟨'п', by decide, by decide⟩⟩

/-- C2 (counterexample): the administrator exists, yet `login` with a
password outside Latin-1 neither throws one of the two messages nor succeeds:
`btoa` throws `InvalidCharacterError`. -/
theorem login_non_latin1_password :
    (∃ u ∈ store0.users, u.username = "admin") ∧
    (login envSameMs "admin" "пароль123!" store0).1 = .error .invalidCharacterError ∧
    (login envSameMs "admin" "пароль123!" store0).1 ≠ .error (.error "User not found") ∧
    (login envSameMs "admin" "пароль123!" store0).1 ≠ .error (.error "Invalid password") ∧
    ¬ ∃ r, (login envSameMs "admin" "пароль123!" store0).1 = .ok r := by
  have h : (login envSameMs "admin" "пароль123!" store0).1 = .error .invalidCharacterError := by
    decide
  refine ⟨by decide, h, ?_, ?_, ?_⟩
  · rw [h]; decide
  · rw [h]; decide
  · rw [h]; rintro ⟨r, hr⟩; cases hr

/-- C3: after a successful `login` the returned user is the first account
matching the identifier with `lastLogin` set to the first clock reading; that
record replaces the old one in place and every other account is unchanged; the
table maps the returned session id to a session of that account; the pointer
is the returned id; and the entry under every other id is as before. -/
theorem login_success_effect (env : LoginEnv) (identifier password : String) (st : Store)
    (r : LoginResult) (h : (login env identifier password st).1 = .ok r) :
    ∃ pre user post,
      st.users = pre ++ user :: post ∧
      (∀ x ∈ pre, matchesIdentifier identifier x = false) ∧
      st.users.find? (matchesIdentifier identifier) = some user ∧
      r.user = { user with lastLogin := some env.lastLoginAt } ∧
      (login env identifier password st).2.users = pre ++ r.user :: post ∧
      (∃ s, (login env identifier password st).2.sessions.lookup r.sessionId = some s ∧
        s.userId = user.id) ∧
      (login env identifier password st).2.currentSession = some r.sessionId ∧
      (∀ k, k ≠ r.sessionId →
        (login env identifier password st).2.sessions.lookup k = st.sessions.lookup k) := by
  obtain ⟨user, digest, hu, hd, hpw⟩ := login_ok_inv env identifier password st r h
  obtain ⟨pre, post, hl, hpre, -, hupd⟩ :=
    find?_split (matchesIdentifier identifier)
      (fun u => { u with lastLogin := some env.lastLoginAt }) st.users user hu
  subst hpw
  have hrun := login_found env identifier password st user user.password hu hd
  simp only [ne_eq, not_true_eq_false, if_false] at hrun
  rw [hrun] at h ⊢
  have hr : r = { user := { user with lastLogin := some env.lastLoginAt },
                  sessionId := env.sessionId } := by
    simpa [eq_comm] using h
  subst hr
  refine ⟨pre, user, post, hl, hpre, hu, rfl, hupd, ⟨_, AList.lookup_insert _, rfl⟩, rfl, ?_⟩
  intro k hk
  exact AList.lookup_insert_ne hk

/-- Witness for C3: `login("admin", "admin123")` on a bootstrap store. -/
theorem login_success_effect_witness :
    (login envSameMs "admin" "admin123" store0).1 =
      .ok adminLogin ∧
    ∃ pre user post,
      store0.users = pre ++ user :: post ∧
      (∀ x ∈ pre, matchesIdentifier "admin" x = false) ∧
      store0.users.find? (matchesIdentifier "admin") = some user ∧
      adminLogin.user =
        { user with lastLogin := some envSameMs.lastLoginAt } ∧
      (login envSameMs "admin" "admin123" store0).2.users =
        pre ++ adminLogin.user :: post ∧
      (∃ s, (login envSameMs "admin" "admin123" store0).2.sessions.lookup
          adminLogin.sessionId = some s ∧
        s.userId = user.id) ∧
      (login envSameMs "admin" "admin123" store0).2.currentSession =
        some adminLogin.sessionId ∧
      (∀ k, k ≠ adminLogin.sessionId →
        (login envSameMs "admin" "admin123" store0).2.sessions.lookup k =
          store0.sessions.lookup k) :=
  ⟨by decide, login_success_effect envSameMs "admin" "admin123" store0 _ (by decide)⟩

/-- C4: a signup that passes the three validation guards and whose email is
already the email of an account throws `Email already registered` and leaves
the store as it was, whatever the username. -/
theorem signup_email_taken (env : SignupEnv) (userData : SignupData) (st : Store)
    (hEmail : validateEmail userData.email = true)
    (hPassword : validatePassword userData.password = true)
    (hConfirm : userData.confirmPassword = userData.password)
    (hTaken : ∃ u ∈ st.users, u.email = userData.email) :
    signup env userData st = (.error (.error "Email already registered"), st) := by
  have hany : (st.users.any fun u => decide (u.email = userData.email)) = true := by
    obtain ⟨u, hu, he⟩ := hTaken
    exact List.any_eq_true.mpr ⟨u, hu, by simpa using he⟩
  simp [signup, hEmail, hPassword, hConfirm, hany]

/-- Witness for C4: a signup reusing the administrator's email, here together
with the administrator's username. -/
theorem signup_email_taken_witness :
    validateEmail cloneData.email = true ∧
    validatePassword cloneData.password = true ∧
    cloneData.confirmPassword = cloneData.password ∧
    (∃ u ∈ store0.users, u.email = cloneData.email) ∧
    (∃ u ∈ store0.users, u.username = cloneData.username) ∧
    signup carolEnv cloneData store0 = (.error (.error "Email already registered"), store0) :=
  ⟨by decide, by decide, by decide, by decide, by decide,
    signup_email_taken carolEnv cloneData store0 (by decide) (by decide) (by decide)
      (by decide)⟩

theorem passwordChar_not_lineTerminator (c : Char) (h : isPasswordChar c = true) :
    isLineTerminator c = false := by
  simp only [isPasswordChar, isAsciiLetter, isDigit, isSymbol, Bool.or_eq_true,
    Bool.and_eq_true, decide_eq_true_eq, List.contains_iff_exists_mem_beq, List.mem_cons,
    List.mem_singleton, beq_iff_eq] at h
  rcases h with (h | h) | h
  · have : c.toNat ≠ 0x0A ∧ c.toNat ≠ 0x0D ∧ c.toNat ≠ 0x2028 ∧ c.toNat ≠ 0x2029 := by
      simp at h; omega
    simp [isLineTerminator, this]
  · have : c.toNat ≠ 0x0A ∧ c.toNat ≠ 0x0D ∧ c.toNat ≠ 0x2028 ∧ c.toNat ≠ 0x2029 := by
      simp at h; omega
    simp [isLineTerminator, this]
  · obtain ⟨a, ha, hca⟩ := h
    subst hca
    simp only [List.not_mem_nil, or_false] at ha
    rcases ha with rfl | rfl | rfl | rfl | rfl | rfl | rfl | rfl <;> decide

theorem lookahead_eq_any (X : Char → Bool) :
    ∀ cs : List Char, (∀ c ∈ cs, isLineTerminator c = false) → lookahead X cs = cs.any X := by
  intro cs
  induction cs with
  | nil => intro _; rfl
  | cons a cs ih =>
    intro h
    have ha : isLineTerminator a = false := h a (List.mem_cons_self _ _)
    have hcs : ∀ c ∈ cs, isLineTerminator c = false :=
      fun c hc => h c (List.mem_cons_of_mem _ hc)
    by_cases hx : X a = true
    · simp [lookahead, List.dropWhile, hx]
    · have hx' : X a = false := by simpa using hx
      have := ih hcs
      simp only [lookahead] at this
      simp [lookahead, List.dropWhile, hx', ha, this]

/-- What the regular expression of `validatePassword` accepts: exactly the
strings of length at least 8 made only of ASCII letters, digits and the
symbols `@ $ ! % * # ? &` that contain at least one letter, one digit and one
symbol; `abc12345` and `short1!` are rejected and `abc123!@` is accepted. -/
theorem validatePassword_iff :
    (∀ p : String, validatePassword p = true ↔
      8 ≤ p.length ∧
      (∀ c ∈ p.data, isPasswordChar c = true) ∧
      (∃ c ∈ p.data, isAsciiLetter c = true) ∧
      (∃ c ∈ p.data, isDigit c = true) ∧
      (∃ c ∈ p.data, isSymbol c = true)) ∧
    validatePassword "abc12345" = false ∧
    validatePassword "abc123!@" = true ∧
    validatePassword "short1!" = false := by
  refine ⟨?_, by decide, by decide, by decide⟩
  intro p
  have hlen : p.length = p.data.length := rfl
  constructor
  · intro h
    simp only [validatePassword, Bool.and_eq_true, decide_eq_true_eq, List.all_eq_true] at h
    obtain ⟨⟨⟨⟨hl, hd⟩, hs⟩, hall⟩, h8⟩ := h
    have hlt : ∀ c ∈ p.data, isLineTerminator c = false :=
      fun c hc => passwordChar_not_lineTerminator c (hall c hc)
    rw [lookahead_eq_any _ _ hlt, List.any_eq_true] at hl hd hs
    exact ⟨hlen ▸ h8, hall, hl, hd, hs⟩
  · rintro ⟨h8, hall, hl, hd, hs⟩
    have hlt : ∀ c ∈ p.data, isLineTerminator c = false :=
      fun c hc => passwordChar_not_lineTerminator c (hall c hc)
    simp only [validatePassword, Bool.and_eq_true, decide_eq_true_eq, List.all_eq_true,
      lookahead_eq_any _ _ hlt, List.any_eq_true]
    exact ⟨⟨⟨⟨hl, hd⟩, hs⟩, hall⟩, hlen ▸ h8⟩

/-- C5 (code defect): `1234567!` has length 8, a digit and a symbol of the
set, which is the rule the comment above `validatePassword` and the message
thrown by `signup` state, and is rejected, because the regular expression
also demands a letter; `abc 123!@` has length 9, a digit and a symbol, and is
rejected, because of the space. -/
theorem validatePassword_rejects_without_letter :
    8 ≤ ("1234567!" : String).length ∧
    (∃ c ∈ ("1234567!" : String).data, isDigit c = true) ∧
    (∃ c ∈ ("1234567!" : String).data, isSymbol c = true) ∧
    validatePassword "1234567!" = false ∧
    8 ≤ ("abc 123!@" : String).length ∧
    (∃ c ∈ ("abc 123!@" : String).data, isDigit c = true) ∧
    (∃ c ∈ ("abc 123!@" : String).data, isSymbol c = true) ∧
    validatePassword "abc 123!@" = false := by
  decide

/-- C6 (amended): after a successful `login` the session stored under the
returned id has `createdAt` equal to the second clock reading and `expiresAt`
equal to the `Date.now()` reading plus 604800000 ms; when the two readings are
the same millisecond, `expiresAt` is `createdAt` plus exactly 7 days. -/
theorem login_session_expiry (env : LoginEnv) (identifier password : String) (st : Store)
    (r : LoginResult) (h : (login env identifier password st).1 = .ok r) :
    ∃ s, (login env identifier password st).2.sessions.lookup r.sessionId = some s ∧
      s.createdAt = env.createdAt ∧
      s.expiresAt = env.dateNow + 604800000 ∧
      (env.createdAt = env.dateNow → s.expiresAt = s.createdAt + 604800000) := by
  obtain ⟨user, digest, hu, hd, hpw⟩ := login_ok_inv env identifier password st r h
  subst hpw
  have hrun := login_found env identifier password st user user.password hu hd
  simp only [ne_eq, not_true_eq_false, if_false] at hrun
  rw [hrun] at h ⊢
  have hr : r = { user := { user with lastLogin := some env.lastLoginAt },
                  sessionId := env.sessionId } := by
    simpa [eq_comm] using h
  subst hr
  refine ⟨_, AList.lookup_insert _, rfl, rfl, ?_⟩
  intro heq
  simp [heq, sevenDays]

/-- Witness for C6: `login("admin", "admin123")` on a bootstrap store, with
`createdAt` and `Date.now()` read in the same millisecond. -/
theorem login_session_expiry_witness :
    (login envSameMs "admin" "admin123" store0).1 = .ok adminLogin ∧
    ∃ s, (login envSameMs "admin" "admin123" store0).2.sessions.lookup
        adminLogin.sessionId = some s ∧
      s.createdAt = envSameMs.createdAt ∧
      s.expiresAt = envSameMs.dateNow + 604800000 ∧
      (envSameMs.createdAt = envSameMs.dateNow → s.expiresAt = s.createdAt + 604800000) :=
  ⟨by decide, login_session_expiry envSameMs "admin" "admin123" store0 adminLogin (by decide)⟩

/-- C6 (counterexample): `login("admin", "admin123")` on a bootstrap store
succeeds, and when the clock ticks between the `createdAt` reading and the
`Date.now()` reading the stored session expires 604800001 ms after its
`createdAt`. -/
theorem login_expiry_after_clock_tick :
    (∃ r, (login envTick "admin" "admin123" store0).1 = .ok r ∧ r.sessionId = "p4w7c1x5r") ∧
    ∃ s, (login envTick "admin" "admin123" store0).2.sessions.lookup "p4w7c1x5r" = some s ∧
      s.expiresAt = s.createdAt + 604800001 ∧
      s.expiresAt ≠ s.createdAt + 604800000 := by
  refine ⟨⟨adminLogin, by decide, rfl⟩,
    ⟨{ userId := "k8f3m2q9z", createdAt := 1700000100000,
       expiresAt := 1700000100001 + sevenDays }, by decide, by decide, by decide⟩⟩

/-- What `checkAuth` does when the pointer is a non-empty id with an entry. -/
theorem checkAuth_live (now : Nat) (st : Store) (sid : String) (s : Session)
    (hp : st.currentSession = some sid) (hne : sid ≠ "")
    (hs : st.sessions.lookup sid = some s) :
    checkAuth now st =
      if s.expiresAt < now then
        (false, { st with sessions := st.sessions.erase sid, currentSession := none })
      else
        match findIdx (fun u => decide (u.id = s.userId)) st.users with
        | none => (false, st)
        | some i => (true, { st with currentUser := some i }) := by
  simp only [checkAuth, hp, hne, if_false, hs]

/-- When `checkAuth` returns at its first guard. -/
theorem checkAuth_guard (now : Nat) (st : Store)
    (h : ∀ sid, st.currentSession = some sid → sid = "" ∨ st.sessions.lookup sid = none) :
    checkAuth now st = (false, st) := by
  cases hp : st.currentSession with
  | none => simp [checkAuth, hp]
  | some sid =>
    rcases h sid hp with he | hl
    · simp [checkAuth, hp, he]
    · by_cases he : sid = ""
      · simp [checkAuth, hp, he]
      · simp [checkAuth, hp, he, hl]

/-- C7 (amended): `checkAuth` returns true iff the pointer holds a non-empty
id, the table has an entry under it, the clock reading is not after the
entry's `expiresAt` (`now ≤ expiresAt`) and some account has the entry's
`userId`; when it returns true, `currentUser` refers to the first such account
and the accounts, the table and the pointer are unchanged. -/
theorem checkAuth_true_iff (now : Nat) (st : Store) :
    ((checkAuth now st).1 = true ↔
      ∃ sid s, st.currentSession = some sid ∧ sid ≠ "" ∧
        st.sessions.lookup sid = some s ∧ now ≤ s.expiresAt ∧
        ∃ u ∈ st.users, u.id = s.userId) ∧
    ((checkAuth now st).1 = true →
      ∃ sid s u, st.currentSession = some sid ∧ st.sessions.lookup sid = some s ∧
        st.users.find? (fun u => decide (u.id = s.userId)) = some u ∧
        u.id = s.userId ∧
        (checkAuth now st).2.currentUserRecord = some u ∧
        (checkAuth now st).2.users = st.users ∧
        (checkAuth now st).2.sessions = st.sessions ∧
        (checkAuth now st).2.currentSession = st.currentSession) := by
  by_cases hg : ∀ sid, st.currentSession = some sid → sid = "" ∨ st.sessions.lookup sid = none
  · rw [checkAuth_guard now st hg]
    refine ⟨⟨by simp, ?_⟩, by simp⟩
    rintro ⟨sid, s, hp, hne, hs, -⟩
    rcases hg sid hp with he | hl
    · exact absurd he hne
    · rw [hl] at hs; cases hs
  · push_neg at hg
    obtain ⟨sid, hp, hne, hl⟩ := hg
    obtain ⟨s, hs⟩ := Option.ne_none_iff_exists'.mp hl
    rw [checkAuth_live now st sid s hp hne hs]
    by_cases hx : s.expiresAt < now
    · simp only [hx, if_true]
      refine ⟨⟨by simp, ?_⟩, by simp⟩
      rintro ⟨sid', s', hp', -, hs', hle, -⟩
      rw [hp] at hp'; cases hp'
      rw [hs] at hs'; cases hs'
      omega
    · simp only [hx, if_false]
      cases hf : findIdx (fun u => decide (u.id = s.userId)) st.users with
      | none =>
        have hnone := (find?_none_iff _ _).mp ((findIdx_eq_none _ _).mp hf)
        refine ⟨⟨by simp, ?_⟩, by simp⟩
        rintro ⟨sid', s', hp', -, hs', -, u, hu, hid⟩
        rw [hp] at hp'; cases hp'
        rw [hs] at hs'; cases hs'
        have := hnone u hu
        simp [hid] at this
      | some i =>
        have hget := findIdx_get _ _ _ hf
        cases hfind : st.users.find? (fun u => decide (u.id = s.userId)) with
        | none =>
          exact absurd ((findIdx_eq_none _ _).mpr hfind) (by simp [hf])
        | some u =>
          obtain ⟨pre, post, hl', -, hpu, -⟩ :=
            find?_split (fun u => decide (u.id = s.userId)) id st.users u hfind
          have hid : u.id = s.userId := by simpa using hpu
          have hmem : u ∈ st.users := by rw [hl']; simp
          refine ⟨⟨fun _ => ⟨sid, s, hp, hne, hs, by omega, u, hmem, hid⟩, fun _ => rfl⟩, ?_⟩
          intro _
          refine ⟨sid, s, u, hp, hs, hfind, hid, ?_, rfl, rfl, rfl⟩
          simp [Store.currentUserRecord, hget, hfind]

/-- Witness for C7: after the administrator has logged in, `checkAuth` one
hundred seconds later returns true and `currentUser` refers to the
administrator account. -/
theorem checkAuth_true_iff_witness :
    (checkAuth 1700000200000 storeLoggedIn).1 = true ∧
    ∃ sid s u, storeLoggedIn.currentSession = some sid ∧
      storeLoggedIn.sessions.lookup sid = some s ∧
      storeLoggedIn.users.find? (fun u => decide (u.id = s.userId)) = some u ∧
      u.id = s.userId ∧
      (checkAuth 1700000200000 storeLoggedIn).2.currentUserRecord = some u ∧
      (checkAuth 1700000200000 storeLoggedIn).2.users = storeLoggedIn.users ∧
      (checkAuth 1700000200000 storeLoggedIn).2.sessions = storeLoggedIn.sessions ∧
      (checkAuth 1700000200000 storeLoggedIn).2.currentSession =
        storeLoggedIn.currentSession :=
  ⟨by decide, (checkAuth_true_iff 1700000200000 storeLoggedIn).2 (by decide)⟩

/-- C7 (counterexample): at the instant `now = expiresAt` the four conditions
of the claim do not all hold (`now < expiresAt` fails) and `checkAuth`
returns true; and with the empty string as pointer and an unexpired entry
under it for an existing account, `checkAuth` returns false. -/
theorem checkAuth_boundary_and_empty_id :
    (storeBoundary.currentSession = some "p4w7c1x5r" ∧
      (∃ s, storeBoundary.sessions.lookup "p4w7c1x5r" = some s ∧ s.expiresAt = 5000 ∧
        ∃ u ∈ storeBoundary.users, u.id = s.userId) ∧
      ¬ (5000 < 5000) ∧
      (checkAuth 5000 storeBoundary).1 = true) ∧
    (Reachable storeEmptyId ∧
      storeEmptyId.currentSession = some "" ∧
      (∃ s, storeEmptyId.sessions.lookup "" = some s ∧ 1700000100001 < s.expiresAt ∧
        ∃ u ∈ storeEmptyId.users, u.id = s.userId) ∧
      (checkAuth 1700000100001 storeEmptyId).1 = false) := by
  refine ⟨⟨by decide, ⟨⟨"k8f3m2q9z", 1000, 5000⟩, by decide, rfl, by decide⟩, by decide,
      by decide⟩,
    ⟨Reachable.login _ _ _ _ (Reachable.boot _ _), by decide,
      ⟨⟨"k8f3m2q9z", 1700000100000, 1700000100000 + sevenDays⟩, by decide, by decide,
        by decide⟩, by decide⟩⟩

theorem erase_size (t : SessionTable) (sid : String) (s : Session)
    (hs : t.lookup sid = some s) :
    (t.erase sid).entries.length + 1 = t.entries.length := by
  have hmem : sid ∈ t.entries.keys := by
    have : sid ∈ t := AList.lookup_isSome.mp (by simp [hs])
    exact this
  have hkeys : (t.erase sid).entries.keys = t.entries.keys.erase sid := by
    simp [AList.erase, List.keys_kerase]
  have h1 : (t.erase sid).entries.length = (t.entries.keys.erase sid).length := by
    rw [← hkeys]; simp [List.keys]
  have h2 : t.entries.length = t.entries.keys.length := by simp [List.keys]
  have h3 := List.length_erase_of_mem hmem
  have h4 : 0 < t.entries.keys.length := List.length_pos_of_mem hmem
  omega

/-- C8 (amended): when the pointer holds a non-empty id whose entry has
`expiresAt` earlier than the clock reading, `checkAuth` returns false, erases
that entry (the table has one entry fewer and the entry under every other id
is as before), clears the pointer, and every later `checkAuth` returns
false. -/
theorem checkAuth_expired (now : Nat) (st : Store) (sid : String) (s : Session)
    (hp : st.currentSession = some sid) (hne : sid ≠ "")
    (hs : st.sessions.lookup sid = some s) (hx : s.expiresAt < now) :
    (checkAuth now st).1 = false ∧
    (checkAuth now st).2.sessions = st.sessions.erase sid ∧
    (checkAuth now st).2.sessions.lookup sid = none ∧
    (checkAuth now st).2.sessions.entries.length + 1 = st.sessions.entries.length ∧
    (∀ k, k ≠ sid → (checkAuth now st).2.sessions.lookup k = st.sessions.lookup k) ∧
    (checkAuth now st).2.currentSession = none ∧
    (checkAuth now st).2.users = st.users ∧
    (∀ later, (checkAuth later (checkAuth now st).2).1 = false) := by
  rw [checkAuth_live now st sid s hp hne hs, if_pos hx]
  refine ⟨rfl, rfl, AList.lookup_erase _ _, erase_size _ _ _ hs, ?_, rfl, rfl, ?_⟩
  · intro k hk
    exact AList.lookup_erase_ne hk
  · intro later
    rw [checkAuth_guard]
    intro sid' h'
    cases h'

/-- Witness for C8: the current session of `storeExpired` expired at 5000 and
`checkAuth` runs at 6000. -/
theorem checkAuth_expired_witness :
    storeExpired.currentSession = some "p4w7c1x5r" ∧
    storeExpired.sessions.lookup "p4w7c1x5r" =
      some { userId := "k8f3m2q9z", createdAt := 1000, expiresAt := 5000 } ∧
    (checkAuth 6000 storeExpired).1 = false ∧
    (checkAuth 6000 storeExpired).2.sessions = storeExpired.sessions.erase "p4w7c1x5r" ∧
    (checkAuth 6000 storeExpired).2.sessions.lookup "p4w7c1x5r" = none ∧
    (checkAuth 6000 storeExpired).2.sessions.entries.length + 1 =
      storeExpired.sessions.entries.length ∧
    (∀ k, k ≠ "p4w7c1x5r" →
      (checkAuth 6000 storeExpired).2.sessions.lookup k = storeExpired.sessions.lookup k) ∧
    (checkAuth 6000 storeExpired).2.currentSession = none ∧
    (checkAuth 6000 storeExpired).2.users = storeExpired.users ∧
    (∀ later, (checkAuth later (checkAuth 6000 storeExpired).2).1 = false) :=
  ⟨by decide, by decide,
    checkAuth_expired 6000 storeExpired "p4w7c1x5r"
      { userId := "k8f3m2q9z", createdAt := 1000, expiresAt := 5000 }
      (by decide) (by decide) (by decide) (by decide)⟩

/-- C8 (counterexample): the pointer of `storeEmptyId` is the empty string,
the table has an entry under it, and that entry's `expiresAt` is earlier than
the clock reading; `checkAuth` returns false and the entry is still there, the
table as large as before. -/
theorem checkAuth_keeps_expired_empty_id :
    Reachable storeEmptyId ∧
    storeEmptyId.currentSession = some "" ∧
    (∃ s, storeEmptyId.sessions.lookup "" = some s ∧ s.expiresAt < 1800000000000) ∧
    (checkAuth 1800000000000 storeEmptyId).1 = false ∧
    (checkAuth 1800000000000 storeEmptyId).2.sessions.lookup "" ≠ none ∧
    (checkAuth 1800000000000 storeEmptyId).2.sessions.entries.length =
      storeEmptyId.sessions.entries.length := by
  refine ⟨Reachable.login _ _ _ _ (Reachable.boot _ _), by decide,
    ⟨⟨"k8f3m2q9z", 1700000100000, 1700000100000 + sevenDays⟩, by decide, by decide⟩,
    by decide, by decide, by decide⟩

/-- C9 (amended): `logout` is total and idempotent on the whole store; it
keeps the accounts, clears the pointer and `currentUser`, and any `checkAuth`
after it returns false.  If the pointer held a non-empty id, no entry is left
under that id; the entry under every other id is as before.  With no pointer
set the table and the accounts are unchanged. -/
theorem logout_idempotent (st : Store) :
    logout (logout st) = logout st ∧
    (logout st).users = st.users ∧
    (logout st).currentSession = none ∧
    (logout st).currentUser = none ∧
    (∀ now, (checkAuth now (logout st)).1 = false) ∧
    (∀ sid, st.currentSession = some sid → sid ≠ "" →
      (logout st).sessions.lookup sid = none) ∧
    (∀ sid, st.currentSession = some sid → ∀ k, k ≠ sid →
      (logout st).sessions.lookup k = st.sessions.lookup k) ∧
    (st.currentSession = none →
      (logout st).sessions = st.sessions ∧ (logout st).users = st.users) := by
  refine ⟨rfl, rfl, rfl, rfl, ?_, ?_, ?_, ?_⟩
  · intro now
    rw [checkAuth_guard]
    intro sid h
    cases h
  · intro sid hp hne
    cases hl : st.sessions.lookup sid with
    | none => simp [logout, hp, hne, hl]
    | some s => simp [logout, hp, hne, hl]
  · intro sid hp k hk
    have hrun : (logout st).sessions =
        if sid ≠ "" ∧ (st.sessions.lookup sid).isSome = true then st.sessions.erase sid
        else st.sessions := by
      simp only [logout, hp]
    rw [hrun]
    split
    · exact AList.lookup_erase_ne hk
    · rfl
  · intro hp
    simp [logout, hp]

/-- Witness for C9: `logout` after the administrator has logged in removes the
session stored under the pointer. -/
theorem logout_idempotent_witness :
    storeLoggedIn.currentSession = some "p4w7c1x5r" ∧
    storeLoggedIn.sessions.lookup "p4w7c1x5r" ≠ none ∧
    (logout storeLoggedIn).sessions.lookup "p4w7c1x5r" = none ∧
    logout (logout storeLoggedIn) = logout storeLoggedIn :=
  ⟨by decide, by decide,
    (logout_idempotent storeLoggedIn).2.2.2.2.2.1 "p4w7c1x5r" (by decide) (by decide),
    (logout_idempotent storeLoggedIn).1⟩

/-- C9 (counterexample): the pointer of `storeEmptyId` is the empty string and
the table has an entry under it; after `logout` the entry is still there. -/
theorem logout_keeps_empty_id_session :
    Reachable storeEmptyId ∧
    storeEmptyId.currentSession = some "" ∧
    storeEmptyId.sessions.lookup "" ≠ none ∧
    (logout storeEmptyId).sessions.lookup "" ≠ none ∧
    (logout storeEmptyId).sessions.entries.length = storeEmptyId.sessions.entries.length := by
  refine ⟨Reachable.login _ _ _ _ (Reachable.boot _ _), by decide, by decide, by decide,
    by decide⟩

/-- Whatever its outcome, `login` changes no field of an account other than
`lastLogin`. -/
theorem login_users_map {β : Type} (g : User → β)
    (hg : ∀ (u : User) (t : Option Nat), g { u with lastLogin := t } = g u)
    (env : LoginEnv) (identifier password : String) (st : Store) :
    (login env identifier password st).2.users.map g = st.users.map g := by
  cases hu : st.users.find? (matchesIdentifier identifier) with
  | none => simp [login, hu]
  | some user =>
    cases hd : hashPassword password with
    | none => simp [login, hu, hd]
    | some digest =>
      rw [login_found env identifier password st user digest hu hd]
      split
      · rfl
      · exact updateFirst_map g _ _ (fun u => hg u _) st.users

theorem login_usersUnique (env : LoginEnv) (identifier password : String) (st : Store)
    (h : usersUnique st) : usersUnique (login env identifier password st).2 := by
  unfold usersUnique
  rw [login_users_map (fun u => u.username) (fun _ _ => rfl),
    login_users_map (fun u => u.email) (fun _ _ => rfl)]
  exact h

theorem signup_usersUnique (env : SignupEnv) (userData : SignupData) (st : Store)
    (h : usersUnique st) : usersUnique (signup env userData st).2 := by
  unfold signup
  split
  · exact h
  split
  · exact h
  split
  · exact h
  split
  · exact h
  split
  · exact h
  rename_i hEmailFree hNameFree
  split
  · exact h
  · apply login_usersUnique
    obtain ⟨hn, he⟩ := h
    have hEmailFree' : ∀ u ∈ st.users, u.email ≠ userData.email := by
      intro u hu heq
      exact hEmailFree (List.any_eq_true.mpr ⟨u, hu, by simpa using heq⟩)
    have hNameFree' : ∀ u ∈ st.users, u.username ≠ userData.username := by
      intro u hu heq
      exact hNameFree (List.any_eq_true.mpr ⟨u, hu, by simpa using heq⟩)
    constructor
    · simp only [List.map_append, List.map_cons, List.map_nil, newUser]
      refine List.Nodup.append hn (List.nodup_singleton _) ?_
      intro x hx hx'
      obtain ⟨u, hu, rfl⟩ := List.mem_map.mp hx
      exact hNameFree' u hu (by simpa using hx')
    · simp only [List.map_append, List.map_cons, List.map_nil, newUser]
      refine List.Nodup.append he (List.nodup_singleton _) ?_
      intro x hx hx'
      obtain ⟨u, hu, rfl⟩ := List.mem_map.mp hx
      exact hEmailFree' u hu (by simpa using hx')

theorem checkAuth_users (now : Nat) (st : Store) : (checkAuth now st).2.users = st.users := by
  unfold checkAuth
  repeat' split
  all_goals rfl

/-- C10: if no two accounts share a username and no two share an email, the
same holds after `signup` (whether it returns or throws), `login`, `logout`
and `checkAuth`; and it holds in every store reachable from a bootstrap
store. -/
theorem usersUnique_invariant :
    (∀ st : Store, usersUnique st →
      (∀ env userData, usersUnique (signup env userData st).2) ∧
      (∀ env identifier password, usersUnique (login env identifier password st).2) ∧
      usersUnique (logout st) ∧
      (∀ now, usersUnique (checkAuth now st).2)) ∧
    (∀ st : Store, Reachable st → usersUnique st) := by
  have hstep : ∀ st : Store, usersUnique st →
      (∀ env userData, usersUnique (signup env userData st).2) ∧
      (∀ env identifier password, usersUnique (login env identifier password st).2) ∧
      usersUnique (logout st) ∧
      (∀ now, usersUnique (checkAuth now st).2) := by
    intro st h
    refine ⟨fun env d => signup_usersUnique env d st h,
      fun env i p => login_usersUnique env i p st h, h, ?_⟩
    intro now
    unfold usersUnique
    rw [checkAuth_users]
    exact h
  refine ⟨hstep, ?_⟩
  intro st hr
  induction hr with
  | boot id createdAt => simp [usersUnique, bootstrapStore]
  | signup env d st _ ih => exact (hstep st ih).1 env d
  | login env i p st _ ih => exact (hstep st ih).2.1 env i p
  | logout st _ ih => exact (hstep st ih).2.2.1
  | checkAuth now st _ ih => exact (hstep st ih).2.2.2 now

/-- Witness for C10: a bootstrap store has unique usernames and emails, and so
has the store after a signup on it. -/
theorem usersUnique_invariant_witness :
    usersUnique store0 ∧
    usersUnique (signup carolEnv carolData store0).2 ∧
    usersUnique (signup carolEnv cloneData store0).2 ∧
    usersUnique (signup daveEnv daveData storeWithCarol).2 :=
  ⟨by decide,
    (usersUnique_invariant.1 store0 (by decide)).1 carolEnv carolData,
    (usersUnique_invariant.1 store0 (by decide)).1 carolEnv cloneData,
    usersUnique_invariant.2 _
      (Reachable.signup daveEnv daveData _
        (Reachable.signup carolEnv carolData _ (Reachable.boot _ _)))⟩

/-! ## When the automatic login of `signup` does reach the new account -/

theorem passwordChar_latin1 (c : Char) (h : isPasswordChar c = true) : c.toNat ≤ 255 := by
  simp only [isPasswordChar, isAsciiLetter, isDigit, isSymbol, Bool.or_eq_true,
    Bool.and_eq_true, decide_eq_true_eq, List.contains_iff_exists_mem_beq, List.mem_cons,
    List.mem_singleton, beq_iff_eq] at h
  rcases h with (h | h) | h
  · simp at h; omega
  · simp at h; omega
  · obtain ⟨a, ha, hca⟩ := h
    subst hca
    simp only [List.not_mem_nil, or_false] at ha
    rcases ha with rfl | rfl | rfl | rfl | rfl | rfl | rfl | rfl <;> decide

theorem find?_append_last (p : User → Bool) (a : User) :
    ∀ l : List User, (∀ x ∈ l, p x = false) → p a = true →
      (l ++ [a]).find? p = some a ∧
      (∀ f, updateFirst p f (l ++ [a]) = l ++ [f a]) ∧
      findIdx p (l ++ [a]) = some l.length := by
  intro l
  induction l with
  | nil =>
    intro _ ha
    simp [List.find?, updateFirst, findIdx, ha]
  | cons b l ih =>
    intro h ha
    have hb : p b = false := h b (List.mem_cons_self _ _)
    obtain ⟨h1, h2, h3⟩ := ih (fun x hx => h x (List.mem_cons_of_mem _ hx)) ha
    refine ⟨by simp [List.find?, hb, h1], fun f => by simp [updateFirst, hb, h2 f], ?_⟩
    simp [findIdx, hb, h3]

/-- Under the guards of `signup` and three further conditions (the new email
is no existing account's username, the generated account id is no existing
account's id, and the generated session id is not empty) `signup` succeeds and
a `checkAuth` no later than the session's `expiresAt` returns true with
`currentUser` referring to the new account, on the free plan with all
counters zero. -/
theorem signup_then_checkAuth (env : SignupEnv) (userData : SignupData) (st : Store)
    (now : Nat)
    (hEmail : validateEmail userData.email = true)
    (hPassword : validatePassword userData.password = true)
    (hConfirm : userData.confirmPassword = userData.password)
    (hEmailFree : ∀ u ∈ st.users, u.email ≠ userData.email)
    (hNameFree : ∀ u ∈ st.users, u.username ≠ userData.username)
    (hCross : ∀ u ∈ st.users, u.username ≠ userData.email)
    (hId : ∀ u ∈ st.users, u.id ≠ env.userId)
    (hSid : env.login.sessionId ≠ "")
    (hNow : now ≤ env.login.dateNow + sevenDays) :
    ∃ r u, (signup env userData st).1 = .ok r ∧
      (checkAuth now (signup env userData st).2).1 = true ∧
      (checkAuth now (signup env userData st).2).2.currentUserRecord = some u ∧
      u.id = env.userId ∧ u.username = userData.username ∧ u.email = userData.email ∧
      u.plan = "free" ∧
      u.shareStats = { totalShares := 0, successfulShares := 0, failedShares := 0,
                       activeSessions := 0 } := by
  have hLatin : ∀ c ∈ userData.password.data, c.toNat ≤ 255 := by
    intro c hc
    simp only [validatePassword, Bool.and_eq_true, List.all_eq_true] at hPassword
    exact passwordChar_latin1 c (hPassword.1.2 c hc)
  obtain ⟨digest, hd⟩ := (btoa_isSome_iff userData.password).mpr hLatin
  have hd' : hashPassword userData.password = some digest := hd
  have hany1 : (st.users.any fun u => decide (u.email = userData.email)) = false := by
    rw [Bool.eq_false_iff]
    intro h
    obtain ⟨u, hu, he⟩ := List.any_eq_true.mp h
    exact hEmailFree u hu (by simpa using he)
  have hany2 : (st.users.any fun u => decide (u.username = userData.username)) = false := by
    rw [Bool.eq_false_iff]
    intro h
    obtain ⟨u, hu, he⟩ := List.any_eq_true.mp h
    exact hNameFree u hu (by simpa using he)
  have hsign : signup env userData st =
      login env.login userData.email userData.password
        { st with users := st.users ++ [newUser env userData digest] } := by
    simp [signup, hEmail, hPassword, hConfirm, hany1, hany2, hd', newUser]
  have hpre : ∀ x ∈ st.users, matchesIdentifier userData.email x = false := by
    intro x hx
    simp [matchesIdentifier, hEmailFree x hx, hCross x hx]
  have hnew : matchesIdentifier userData.email (newUser env userData digest) = true := by
    simp [matchesIdentifier, newUser]
  obtain ⟨hfind, hupd, -⟩ := find?_append_last _ _ st.users hpre hnew
  have hrun := login_found env.login userData.email userData.password
    { st with users := st.users ++ [newUser env userData digest] }
    (newUser env userData digest) digest hfind hd'
  have hpw : (newUser env userData digest).password = digest := rfl
  simp only [hpw, ne_eq, not_true_eq_false, if_false] at hrun
  rw [hsign, hrun]
  have hidpre : ∀ x ∈ st.users, (fun u : User => decide (u.id = env.userId)) x = false := by
    intro x hx
    simp [hId x hx]
  obtain ⟨hfind2, -, hidx⟩ := find?_append_last (fun u : User => decide (u.id = env.userId))
    { newUser env userData digest with lastLogin := some env.login.lastLoginAt }
    st.users hidpre (by simp [newUser])
  refine ⟨_, { newUser env userData digest with lastLogin := some env.login.lastLoginAt },
    rfl, ?_⟩
  rw [checkAuth_live now _ env.login.sessionId
    { userId := env.userId, createdAt := env.login.createdAt,
      expiresAt := env.login.dateNow + sevenDays } rfl hSid (AList.lookup_insert _)]
  have hnx : ¬ (env.login.dateNow + sevenDays < now) := by omega
  simp only [hnx, if_false, hupd]
  have hidx' : findIdx (fun u : User => decide (u.id = env.userId))
      (st.users ++ [{ newUser env userData digest with
        lastLogin := some env.login.lastLoginAt }]) = some st.users.length := hidx
  simp only [newUser] at hidx' ⊢
  rw [hidx']
  simp [Store.currentUserRecord]

/-! ## The hourly check and failures of `signup` -/

/-- What `expirySweep` does when the pointer is a non-empty id with an entry. -/
theorem expirySweep_live (now : Nat) (st : Store) (sid : String) (s : Session)
    (hp : st.currentSession = some sid) (hne : sid ≠ "")
    (hs : st.sessions.lookup sid = some s) :
    expirySweep now st = if s.expiresAt < now then logout st else st := by
  simp only [expirySweep, hp, hne, if_false, hs]

/-- The table after `logout` when the pointer is a non-empty id with an entry. -/
theorem logout_sessions_live (st : Store) (sid : String) (s : Session)
    (hp : st.currentSession = some sid) (hne : sid ≠ "")
    (hs : st.sessions.lookup sid = some s) :
    (logout st).sessions = st.sessions.erase sid := by
  simp [logout, hp, hne, hs]

/-- C11 (amended): the hourly check either leaves the store as it is or
performs `logout`.  It keeps the accounts and the entry under every id other
than the pointer, expired or not; and when the pointer holds a non-empty id,
no entry with `expiresAt < now` is left under that id. -/
theorem expirySweep_effect (now : Nat) (st : Store) :
    (expirySweep now st = st ∨ expirySweep now st = logout st) ∧
    (expirySweep now st).users = st.users ∧
    (∀ k, st.currentSession ≠ some k →
      (expirySweep now st).sessions.lookup k = st.sessions.lookup k) ∧
    (∀ sid, st.currentSession = some sid → sid ≠ "" →
      ∀ s, (expirySweep now st).sessions.lookup sid = some s → now ≤ s.expiresAt) := by
  cases hp : st.currentSession with
  | none =>
    have hrun : expirySweep now st = st := by simp [expirySweep, hp]
    rw [hrun]
    exact ⟨Or.inl rfl, rfl, fun _ _ => rfl, fun sid h => by cases h⟩
  | some sid =>
    by_cases hne : sid = ""
    · have hrun : expirySweep now st = st := by simp [expirySweep, hp, hne]
      rw [hrun]
      refine ⟨Or.inl rfl, rfl, fun _ _ => rfl, ?_⟩
      intro sid' h hne'
      cases h
      exact absurd hne hne'
    · cases hs : st.sessions.lookup sid with
      | none =>
        have hrun : expirySweep now st = st := by simp [expirySweep, hp, hne, hs]
        rw [hrun]
        refine ⟨Or.inl rfl, rfl, fun _ _ => rfl, ?_⟩
        intro sid' h _ s hs'
        cases h
        rw [hs] at hs'
        cases hs'
      | some s =>
        rw [expirySweep_live now st sid s hp hne hs]
        by_cases hx : s.expiresAt < now
        · rw [if_pos hx]
          refine ⟨Or.inr rfl, rfl, ?_, ?_⟩
          · intro k hk
            rw [logout_sessions_live st sid s hp hne hs]
            exact AList.lookup_erase_ne (fun h => hk (by rw [h]))
          · intro sid' h _ s' hs'
            cases h
            rw [logout_sessions_live st sid s hp hne hs, AList.lookup_erase] at hs'
            cases hs'
        · rw [if_neg hx]
          refine ⟨Or.inl rfl, rfl, fun _ _ => rfl, ?_⟩
          intro sid' h _ s' hs'
          cases h
          rw [hs] at hs'
          cases hs'
          omega

/-- Witness for C11: on `storeTwoLogins` the check at a time after both
sessions have expired removes the session the pointer names. -/
theorem expirySweep_effect_witness :
    storeTwoLogins.currentSession = some "m2n4b6v8c" ∧
    storeTwoLogins.sessions.lookup "m2n4b6v8c" ≠ none ∧
    (expirySweep 1800000000000 storeTwoLogins).sessions.lookup "m2n4b6v8c" = none ∧
    (expirySweep 1800000000000 storeTwoLogins).sessions.lookup "p4w7c1x5r" =
      storeTwoLogins.sessions.lookup "p4w7c1x5r" :=
  ⟨by decide, by decide, by decide,
    (expirySweep_effect 1800000000000 storeTwoLogins).2.2.1 "p4w7c1x5r" (by decide)⟩

/-- C11 (counterexample): the administrator logs in twice without logging
out; at a time when both sessions have `expiresAt < now` the hourly check
removes only the session the pointer names, and the first session is still in
the table, expired. -/
theorem expirySweep_keeps_other_expired_session :
    Reachable storeTwoLogins ∧
    storeTwoLogins.currentSession = some "m2n4b6v8c" ∧
    (∃ s, storeTwoLogins.sessions.lookup "m2n4b6v8c" = some s ∧
      s.expiresAt < 1800000000000) ∧
    (expirySweep 1800000000000 storeTwoLogins).sessions.lookup "m2n4b6v8c" = none ∧
    ∃ s, (expirySweep 1800000000000 storeTwoLogins).sessions.lookup "p4w7c1x5r" = some s ∧
      s.expiresAt < 1800000000000 := by
  refine ⟨Reachable.login _ _ _ _ (Reachable.login _ _ _ _ (Reachable.boot _ _)), by decide,
    ⟨⟨"k8f3m2q9z", 1700000101000, 1700000101000 + sevenDays⟩, by decide, by decide⟩,
    by decide,
    ⟨⟨"k8f3m2q9z", 1700000100000, 1700000100000 + sevenDays⟩, by decide, by decide⟩⟩

/-- A `login` that throws leaves the store as it was. -/
theorem login_error_store (env : LoginEnv) (identifier password : String) (st : Store)
    (e : Thrown) (h : (login env identifier password st).1 = .error e) :
    (login env identifier password st).2 = st := by
  cases hu : st.users.find? (matchesIdentifier identifier) with
  | none => simp [login, hu]
  | some user =>
    cases hd : hashPassword password with
    | none => simp [login, hu, hd]
    | some digest =>
      rw [login_found env identifier password st user digest hu hd] at h ⊢
      by_cases hne : user.password = digest
      · simp [hne] at h
      · simp [hne]

/-- A `signup` that throws either leaves the store as it was, or has appended
the new account and changed nothing else; the second case needs an existing
account whose username is the new email. -/
theorem signup_error_store (env : SignupEnv) (userData : SignupData) (st : Store)
    (e : Thrown) (h : (signup env userData st).1 = .error e) :
    (signup env userData st).2 = st ∨
    ((∃ digest, hashPassword userData.password = some digest ∧
        (signup env userData st).2 =
          { st with users := st.users ++ [newUser env userData digest] }) ∧
      ∃ u ∈ st.users, u.username = userData.email) := by
  unfold signup at h ⊢
  split
  · exact Or.inl rfl
  split
  · exact Or.inl rfl
  split
  · exact Or.inl rfl
  split
  · exact Or.inl rfl
  split
  · exact Or.inl rfl
  rename_i hEmailFree _
  rw [if_neg (by assumption), if_neg (by assumption), if_neg (by assumption),
    if_neg (by assumption), if_neg (by assumption)] at h
  cases hd : hashPassword userData.password with
  | none => exact Or.inl rfl
  | some digest =>
    simp only [hd] at h ⊢
    right
    refine ⟨⟨digest, rfl, login_error_store _ _ _ _ e h⟩, ?_⟩
    by_contra hcross
    push_neg at hcross
    have hpre : ∀ x ∈ st.users, matchesIdentifier userData.email x = false := by
      intro x hx
      have hx1 : x.email ≠ userData.email := by
        intro heq
        exact hEmailFree (List.any_eq_true.mpr ⟨x, hx, by simpa using heq⟩)
      simp [matchesIdentifier, hx1, hcross x hx]
    have hnew : matchesIdentifier userData.email (newUser env userData digest) = true := by
      simp [matchesIdentifier, newUser]
    obtain ⟨hfind, -, -⟩ := find?_append_last _ _ st.users hpre hnew
    have hrun := login_found env.login userData.email userData.password
      { st with users := st.users ++ [newUser env userData digest] }
      (newUser env userData digest) digest hfind hd
    have hpw : (newUser env userData digest).password = digest := rfl
    simp only [hpw, ne_eq, not_true_eq_false, if_false] at hrun
    have hemail : (newUser env userData digest).email = userData.email := rfl
    rw [hemail, hrun] at h
    cases h

/-- C12 (code defect): on the input of C1 `signup` throws `Invalid password`,
and the accounts list after the throw is the list before with the new account
appended; the sessions table and the pointer are as before. -/
theorem signup_throw_keeps_appended_account :
    Reachable storeWithCarol ∧
    (signup daveEnv daveData storeWithCarol).1 = .error (.error "Invalid password") ∧
    (∃ digest, hashPassword daveData.password = some digest ∧
      (signup daveEnv daveData storeWithCarol).2.users =
        storeWithCarol.users ++ [newUser daveEnv daveData digest]) ∧
    (signup daveEnv daveData storeWithCarol).2.users ≠ storeWithCarol.users ∧
    (signup daveEnv daveData storeWithCarol).2.sessions = storeWithCarol.sessions ∧
    (signup daveEnv daveData storeWithCarol).2.currentSession =
      storeWithCarol.currentSession := by
  refine ⟨Reachable.signup _ _ _ (Reachable.boot _ _), by decide,
    ⟨"eHl6Nzg5Iz8=", by decide, by decide⟩, by decide, AList.ext (by decide), by decide⟩

end Shareer
